import Mathlib

/-!
Shallow embedding of the ipfs-server command-line front end
(src/main.rs and src/arguments.rs).

Bytes are modelled as natural numbers below 256; file contents are byte
lists.  The external node service (rust-ipfs), the config-file loader
(the config module, external to the two dispatcher-layer files) and the
libp2p keypair codec are modelled as oracles carried in environment
records, while every control-flow decision made by the code under
verification is embedded literally.
-/

namespace IpfsServer

/-! Base64, standard alphabet with padding, as used via the base64 crate
with GeneralPurpose STANDARD PAD in both main.rs and arguments.rs.
Encoding maps byte lists to ASCII-code lists; decoding is strict: it
rejects invalid symbols, non-4-multiple lengths, misplaced padding and
non-canonical trailing bits, as the crate's default configuration does. -/

/-- ASCII code of the base64 symbol for a sextet value below 64. -/
def sextetCode (n : Nat) : Nat :=
  if n < 26 then 65 + n
  else if n < 52 then 97 + (n - 26)
  else if n < 62 then 48 + (n - 52)
  else if n = 62 then 43
  else 47

/-- Inverse symbol table: sextet value of an ASCII code, if it is a
base64 symbol. -/
def codeSextet (c : Nat) : Option Nat :=
  if 65 ≤ c ∧ c ≤ 90 then some (c - 65)
  else if 97 ≤ c ∧ c ≤ 122 then some (c - 97 + 26)
  else if 48 ≤ c ∧ c ≤ 57 then some (c - 48 + 52)
  else if c = 43 then some 62
  else if c = 47 then some 63
  else none

/-- ASCII code of the padding character. -/
def padCode : Nat := 61

/-- Base64-encode a byte list (standard alphabet, padded). -/
def base64Encode : List Nat → List Nat
  | [] => []
  | [a] =>
      [sextetCode (a / 4), sextetCode (a % 4 * 16), padCode, padCode]
  | [a, b] =>
      [sextetCode (a / 4), sextetCode (a % 4 * 16 + b / 16),
       sextetCode (b % 16 * 4), padCode]
  | a :: b :: c :: rest =>
      sextetCode (a / 4) :: sextetCode (a % 4 * 16 + b / 16) ::
      sextetCode (b % 16 * 4 + c / 64) :: sextetCode (c % 64) ::
      base64Encode rest

/-- Base64-decode an ASCII-code list; `none` on any malformed input. -/
def base64Decode : List Nat → Option (List Nat)
  | [] => some []
  | c1 :: c2 :: c3 :: c4 :: rest =>
      match codeSextet c1, codeSextet c2 with
      | some s1, some s2 =>
        if c3 = padCode then
          if c4 = padCode ∧ rest = [] ∧ s2 % 16 = 0 then
            some [s1 * 4 + s2 / 16]
          else none
        else
          match codeSextet c3 with
          | some s3 =>
            if c4 = padCode then
              if rest = [] ∧ s3 % 4 = 0 then
                some [s1 * 4 + s2 / 16, s2 % 16 * 16 + s3 / 4]
              else none
            else
              match codeSextet c4 with
              | some s4 =>
                match base64Decode rest with
                | some bs =>
                    some ((s1 * 4 + s2 / 16) :: (s2 % 16 * 16 + s3 / 4) ::
                          (s3 % 4 * 64 + s4) :: bs)
                | none => none
              | none => none
          | none => none
      | _, _ => none
  | _ => none

/-! Identity resolution, main.rs lines 53 to 75.

Fallible externals are oracles in `IdentityEnv`: loading the external
config (`IpfsConfig::load` followed by `config.identity.keypair().ok()`,
so a load error is fatal while keypair extraction failure degrades to
`none`), the filesystem (`path.is_file()`, `tokio::fs::read_to_string`,
`tokio::fs::write`), the libp2p keypair protobuf codec and Ed25519 key
generation.  The keypair type is a parameter `K`.  The function also
returns the list of side-effecting actions it performed, in order. -/

/-- Errors that propagate out of `main` via the `?` operator during
identity resolution and startup. -/
inductive StartupErr
  | configLoadErr
  | fsReadErr
  | fsWriteErr
  | base64DecodeErr
  | protoEncodeErr
  | nodeOpErr
  deriving DecidableEq

/-- Side-effecting steps observed while resolving the identity. -/
inductive IdAction
  | loadConfig
  | readKeypairFile
  | generateKeypair
  | writeKeypairFile (contents : List Nat)
  deriving DecidableEq

/-- Which of the two identity-bearing CLI options were supplied. -/
structure IdOptions where
  configGiven : Bool
  keypairGiven : Bool
  deriving DecidableEq

/-- Oracles for the externals that identity resolution consults. -/
structure IdentityEnv (K : Type) where
  configLoad : Except StartupErr (Option K)
  isFile : Bool
  readKeypairFile : Except StartupErr (List Nat)
  fromProtobufEncoding : List Nat → Option K
  toProtobufEncoding : K → Except StartupErr (List Nat)
  generateEd25519 : K
  writeKeypairFile : List Nat → Except StartupErr Unit

/-- Config branch of main.rs lines 55 to 58: when a config path was
given, `IpfsConfig::load(path)?` then `config.identity.keypair().ok()`. -/
def configStep {K : Type} (opt : IdOptions) (env : IdentityEnv K) :
    Except StartupErr (Option K × List IdAction) :=
  if opt.configGiven then
    match env.configLoad with
    | .error e => .error e
    | .ok kp => .ok (kp, [IdAction.loadConfig])
  else .ok (none, [])

/-- Keypair-file branch of main.rs lines 61 to 74: read, base64-decode
(fatal on failure via `?`), protobuf-parse (non-fatal via `.ok()`) when
the file exists; otherwise generate an Ed25519 keypair, base64-encode its
protobuf form and write it. -/
def keypairFileStep {K : Type} (env : IdentityEnv K) (tr : List IdAction) :
    Except StartupErr (Option K × List IdAction) :=
  if env.isFile then
    match env.readKeypairFile with
    | .error e => .error e
    | .ok contents =>
      match base64Decode contents with
      | none => .error StartupErr.base64DecodeErr
      | some bytes =>
          .ok (env.fromProtobufEncoding bytes, tr ++ [IdAction.readKeypairFile])
  else
    match env.toProtobufEncoding env.generateEd25519 with
    | .error e => .error e
    | .ok pb =>
      match env.writeKeypairFile (base64Encode pb) with
      | .error e => .error e
      | .ok _ =>
          .ok (some env.generateEd25519,
               tr ++ [IdAction.generateKeypair,
                      IdAction.writeKeypairFile (base64Encode pb)])

/-- Identity resolution of main.rs lines 53 to 75: the config branch
runs first; the keypair-file branch runs only when a keypair path was
given and the config yielded no keypair. -/
def resolveIdentity {K : Type} (opt : IdOptions) (env : IdentityEnv K) :
    Except StartupErr (Option K × List IdAction) :=
  match configStep opt env with
  | .error e => .error e
  | .ok (kp0, tr0) =>
      if kp0.isNone then
        if opt.keypairGiven then keypairFileStep env tr0
        else .ok (kp0, tr0)
      else .ok (kp0, tr0)

/-- True for the actions that touch the keypair file on disk. -/
def touchesKeypairFile : IdAction → Bool
  | IdAction.readKeypairFile => true
  | IdAction.writeKeypairFile _ => true
  | _ => false

/-! Multiaddresses, modelled as lists of protocol segments; only the
circuit-relay segment is distinguished, the rest are opaque tokens. -/

/-- One protocol segment of a multiaddress. -/
inductive MProto
  | p2pCircuit
  | seg (n : Nat)
  deriving DecidableEq

/-- A multiaddress is a sequence of protocol segments. -/
abbrev Multiaddr := List MProto

/-- The `with(Protocol::P2pCircuit)` derivation used at main.rs line
105: append the circuit-relay segment to the relay's address. -/
def p2pCircuitOf (addr : Multiaddr) : Multiaddr :=
  addr ++ [MProto.p2pCircuit]

/-! Node configuration assembly, main.rs lines 77 to 98.  Each builder
method of `UninitializedIpfs` is a field update; `buildNode` chains them
exactly as `main` does. -/

/-- The `FDLimit` argument of `fd_limit`. -/
inductive FDLimitArg
  | maxLimit
  | custom (n : Nat)
  deriving DecidableEq

/-- CLI options that feed configuration assembly. -/
structure NodeOptions where
  path : Option Nat
  listenAddress : List Multiaddr
  relays : List Multiaddr
  bootstraps : List Multiaddr
  deriving DecidableEq

/-- Accumulated node configuration, mirroring the relevant state of the
`UninitializedIpfs` builder. -/
structure NodeBuilder where
  defaultsApplied : Bool
  relayClient : Bool
  upnp : Bool
  fdLimit : Option FDLimitArg
  customBehaviour : Bool
  keypair : Option Nat
  listeningAddrs : List Multiaddr
  relayServer : Bool
  storagePath : Option Nat
  deriving DecidableEq

/-- `UninitializedIpfs::new()`. -/
def NodeBuilder.new : NodeBuilder :=
  ⟨false, false, false, none, false, none, [], false, none⟩

/-- `with_default()`. -/
def NodeBuilder.withDefault (u : NodeBuilder) : NodeBuilder :=
  { u with defaultsApplied := true }

/-- `with_relay(b)`: relay-client capability. -/
def NodeBuilder.withRelay (u : NodeBuilder) (b : Bool) : NodeBuilder :=
  { u with relayClient := b }

/-- `with_upnp()`. -/
def NodeBuilder.withUpnp (u : NodeBuilder) : NodeBuilder :=
  { u with upnp := true }

/-- `fd_limit(l)`. -/
def NodeBuilder.fdLimitSet (u : NodeBuilder) (l : FDLimitArg) : NodeBuilder :=
  { u with fdLimit := some l }

/-- `with_custom_behaviour(...)`. -/
def NodeBuilder.withCustomBehaviour (u : NodeBuilder) : NodeBuilder :=
  { u with customBehaviour := true }

/-- `set_keypair(&k)`. -/
def NodeBuilder.setKeypair (u : NodeBuilder) (k : Nat) : NodeBuilder :=
  { u with keypair := some k }

/-- `add_listening_addrs(addrs)`. -/
def NodeBuilder.addListeningAddrs (u : NodeBuilder) (addrs : List Multiaddr) :
    NodeBuilder :=
  { u with listeningAddrs := u.listeningAddrs ++ addrs }

/-- `with_relay_server(Default::default())`: relay-server capability. -/
def NodeBuilder.withRelayServer (u : NodeBuilder) : NodeBuilder :=
  { u with relayServer := true }

/-- `set_path(path)`. -/
def NodeBuilder.setPath (u : NodeBuilder) (p : Nat) : NodeBuilder :=
  { u with storagePath := some p }

/-- Configuration assembly of main.rs lines 77 to 98, applied in the
exact order of the source. -/
def buildNode (opt : NodeOptions) (keypair : Option Nat) : NodeBuilder :=
  let u := ((((NodeBuilder.new.withDefault.withRelay true).withUpnp).fdLimitSet
      FDLimitArg.maxLimit).withCustomBehaviour)
  let u := match keypair with
    | some k => u.setKeypair k
    | none => u
  let u := if opt.listenAddress.isEmpty then u else u.addListeningAddrs opt.listenAddress
  let u := if opt.relays.isEmpty then u.withRelayServer else u
  let u := match opt.path with
    | some p => u.setPath p
    | none => u
  u

/-! Relay-circuit registration, main.rs lines 102 to 112: for each
configured relay address, `add_listening_address(relay.with(P2pCircuit))`;
on error, print and continue.  The loop performs no separate dial step.
The trace alphabet nevertheless carries a `dialAttempt` constructor so
that the specified-but-absent dial step can be stated about traces. -/

/-- Observable steps of the relay loop. -/
inductive RelayAction
  | dialAttempt (addr : Multiaddr)
  | listenAttempt (addr : Multiaddr)
  | listenError (addr : Multiaddr)
  deriving DecidableEq

/-- The relay loop of main.rs lines 102 to 112; `listenOk` is the node
service's per-address success oracle for `add_listening_address`. -/
def relayPhase (relays : List Multiaddr) (listenOk : Multiaddr → Bool) :
    List RelayAction :=
  match relays with
  | [] => []
  | r :: rest =>
      let a := p2pCircuitOf r
      (if listenOk a then [RelayAction.listenAttempt a]
       else [RelayAction.listenAttempt a, RelayAction.listenError a]) ++
      relayPhase rest listenOk

/-- The listening addresses attempted by a relay trace, in order. -/
def listenAttempts : List RelayAction → List Multiaddr
  | [] => []
  | RelayAction.listenAttempt a :: rest => a :: listenAttempts rest
  | _ :: rest => listenAttempts rest

/-! Bootstrap phase, main.rs lines 113 to 126: register the default
bootstrap set when no explicit addresses were given, otherwise register
each given address (each registration fatal on error via `?`); then, if
the node's bootstrap set is non-empty, call `bootstrap()` once.  There
is no loop, no spawned task and no sleep; the action alphabet still has
a sleep constructor so the specified interval can be stated. -/

/-- Observable steps of the bootstrap phase. -/
inductive BootAction
  | defaultBootstrap
  | addBootstrap (addr : Multiaddr)
  | bootstrapCall
  | sleepFiveMinutes
  deriving DecidableEq

/-- Number of bootstrap invocations recorded in a trace. -/
def countBootstrapCalls : List BootAction → Nat
  | [] => 0
  | BootAction.bootstrapCall :: rest => countBootstrapCalls rest + 1
  | _ :: rest => countBootstrapCalls rest

/-- Success oracles for the node-service calls of the bootstrap phase. -/
structure BootEnv where
  defaultBootstrapOk : Bool
  addBootstrapOk : Multiaddr → Bool
  bootstrapsNonEmpty : Bool
  bootstrapCallOk : Bool

/-- The registration loop of main.rs lines 117 to 121: `add_bootstrap`
for each address, fatal on the first error. -/
def registerBootstraps (l : List Multiaddr) (env : BootEnv) :
    Except StartupErr (List BootAction) :=
  match l with
  | [] => .ok []
  | a :: rest =>
      if env.addBootstrapOk a then
        match registerBootstraps rest env with
        | .error e => .error e
        | .ok tr => .ok (BootAction.addBootstrap a :: tr)
      else .error StartupErr.nodeOpErr

/-- Main.rs lines 124 to 126: if `get_bootstraps()` is non-empty, call
`bootstrap()` once, fatal on error. -/
def bootstrapTail (tr : List BootAction) (env : BootEnv) :
    Except StartupErr (List BootAction) :=
  if env.bootstrapsNonEmpty then
    if env.bootstrapCallOk then .ok (tr ++ [BootAction.bootstrapCall])
    else .error StartupErr.nodeOpErr
  else .ok tr

/-- The whole bootstrap phase of main.rs lines 113 to 126. -/
def bootstrapPhase (bootstraps : List Multiaddr) (env : BootEnv) :
    Except StartupErr (List BootAction) :=
  match bootstraps with
  | [] =>
      if env.defaultBootstrapOk then
        bootstrapTail [BootAction.defaultBootstrap] env
      else .error StartupErr.nodeOpErr
  | a :: rest =>
      match registerBootstraps (a :: rest) env with
      | .error e => .error e
      | .ok tr => bootstrapTail tr env

/-! Command dispatcher, arguments.rs.  Streamed operations are modelled
as a finite list of status items consumed item by item; the progress-bar
calls they cause are recorded as an operation trace. -/

/-- The `UnixfsStatus` stream items of add and get, with tokens for the
path and error payloads. -/
inductive UnixfsStatus
  | progressStatus (written : Nat) (totalSize : Option Nat)
  | completedStatus (path : Nat)
  | failedStatus (error : Nat)
  deriving DecidableEq

/-- Progress-bar operations issued by the Add arm (arguments.rs lines
140 to 152). -/
inductive AddPbOp
  | setPosition (n : Nat)
  | finishAdded (path : Nat)
  | finishErrorAdding (error : Nat)
  deriving DecidableEq

/-- Rendering of one Add status item (the match at arguments.rs lines
141 to 151). -/
def addStep : UnixfsStatus → List AddPbOp
  | UnixfsStatus.progressStatus written _ => [AddPbOp.setPosition written]
  | UnixfsStatus.completedStatus path => [AddPbOp.finishAdded path]
  | UnixfsStatus.failedStatus error => [AddPbOp.finishErrorAdding error]

/-- The Add consumption loop (`while let Some(status) = status.next()`,
arguments.rs lines 140 to 152): every item of the stream is consumed, no
arm breaks.  Returns the number of items consumed and the progress-bar
trace. -/
def addConsume : List UnixfsStatus → Nat × List AddPbOp
  | [] => (0, [])
  | s :: rest =>
      let r := addConsume rest
      (r.1 + 1, addStep s ++ r.2)

/-- Progress-bar operations issued by the Get arm (arguments.rs lines
196 to 224). -/
inductive GetPbOp
  | setLength (n : Nat)
  | setPosition (n : Nat)
  | finishSaved
  | finishFailed (error : Nat)
  deriving DecidableEq

/-- Rendering of one Get status item under the current `size_set` flag
(the match at arguments.rs lines 204 to 223); returns the new flag and
the operations issued. -/
def getStep (sizeSet : Bool) : UnixfsStatus → Bool × List GetPbOp
  | UnixfsStatus.progressStatus written totalSize =>
      match sizeSet, totalSize with
      | false, some size =>
          (true, [GetPbOp.setLength size, GetPbOp.setPosition written])
      | _, _ => (sizeSet, [GetPbOp.setPosition written])
  | UnixfsStatus.completedStatus _ => (sizeSet, [GetPbOp.finishSaved])
  | UnixfsStatus.failedStatus error => (sizeSet, [GetPbOp.finishFailed error])

/-- The Get consumption loop threading the `size_set` flag. -/
def getLoop (sizeSet : Bool) : List UnixfsStatus → List GetPbOp
  | [] => []
  | s :: rest =>
      let r := getStep sizeSet s
      r.2 ++ getLoop r.1 rest

/-- The Get consumption loop as started at arguments.rs line 201, with
`size_set = false`. -/
def getConsume (stream : List UnixfsStatus) : List GetPbOp :=
  getLoop false stream

/-- True for the set-length progress-bar operation. -/
def isSetLengthOp : GetPbOp → Bool
  | GetPbOp.setLength _ => true
  | _ => false

/-- Total size of the first progress item that carries one. -/
def firstTotalSize : List UnixfsStatus → Option Nat
  | [] => none
  | UnixfsStatus.progressStatus _ (some t) :: _ => some t
  | _ :: rest => firstTotalSize rest

/-- Root of an `IpfsPath`: either a content identifier (token) or a
non-cid root such as an IPNS or DNS root. -/
inductive PathRoot
  | cidRoot (c : Nat)
  | otherRoot (n : Nat)
  deriving DecidableEq

/-- The `root().cid()` accessor. -/
def PathRoot.cid : PathRoot → Option Nat
  | PathRoot.cidRoot c => some c
  | PathRoot.otherRoot _ => none

/-- An `IpfsPath`: a root plus the named path segments iterated by
`path.iter()`. -/
structure IpfsPath where
  root : PathRoot
  segments : List String
  deriving DecidableEq

/-- Display form of a content identifier token, `cid.to_string()`. -/
def cidDisplay (c : Nat) : String :=
  toString c

/-- Result of resolving the Get target file: either a file name or the
`panic!("Invalid path")` abort. -/
inductive GetTarget
  | file (name : String)
  | panicInvalidPath
  deriving DecidableEq

/-- Target-file resolution of the Get arm, arguments.rs lines 185 to
194: the explicit local path if given, else the last path segment, else
the string form of the root content identifier, else a panic. -/
def resolveGetTarget (localPath : Option String) (path : IpfsPath) : GetTarget :=
  match localPath with
  | some p => GetTarget.file p
  | none =>
      match path.segments.getLast? with
      | some item => GetTarget.file item
      | none =>
          match path.root.cid with
          | some c => GetTarget.file (cidDisplay c)
          | none => GetTarget.panicInvalidPath

/-! Pin command group, arguments.rs lines 69 to 94 and 263 to 296. -/

/-- The pin subcommands, with the content identifier as a token. -/
inductive PinCommand
  | add (path : Nat)
  | ls
  | rm (path : Nat)
  deriving DecidableEq

/-- The pin argument group: the `--recursive` flag (clap declares
`default_value_t = true`) and the subcommand. -/
structure PinArg where
  recursive : Bool
  command : PinCommand
  deriving DecidableEq

/-- Default of the `--recursive` flag, from `default_value_t = true` at
arguments.rs line 71. -/
def pinRecursiveDefault : Bool := true

/-- Node-service calls the pin arms perform. -/
inductive PinNodeCall
  | insertPin (cid : Nat) (recursive : Bool)
  | removePin (cid : Nat) (recursive : Bool)
  | listPins
  deriving DecidableEq

/-- The node-service call made by the pin dispatcher arm (arguments.rs
lines 263 to 296): add and rm both pass the group's `recursive` flag. -/
def pinDispatchCall (arg : PinArg) : PinNodeCall :=
  match arg.command with
  | PinCommand.add path => PinNodeCall.insertPin path arg.recursive
  | PinCommand.ls => PinNodeCall.listPins
  | PinCommand.rm path => PinNodeCall.removePin path arg.recursive

/-! Concrete witness inputs. -/

/-- A sample non-circuit multiaddress. -/
def addrW : Multiaddr := [MProto.seg 0]

/-- An all-success bootstrap environment whose resulting bootstrap set
is non-empty. -/
def bootEnvW : BootEnv :=
  ⟨true, fun _ => true, true, true⟩

/-- Identity environment for the config-precedence witness: the config
yields keypair token 7 while the keypair file also exists and would
parse. -/
def envC5W : IdentityEnv Nat :=
  ⟨.ok (some 7), true, .ok [], fun _ => some 3, fun _ => .ok [], 5,
   fun _ => .ok ()⟩

/-- Identity environment for the parse-failure witness: no config, the
keypair file exists, its contents are empty (base64-decoding to the
empty byte list) and protobuf parsing fails. -/
def envC3W : IdentityEnv Nat :=
  ⟨.ok none, true, .ok [], fun _ => none, fun _ => .ok [], 5,
   fun _ => .ok ()⟩

/-- Identity environment for the base64-failure counterexample: no
config, the keypair file exists and holds the single byte 33, which is
not a base64 symbol. -/
def envC3Cex : IdentityEnv Nat :=
  ⟨.ok none, true, .ok [33], fun _ => none, fun _ => .ok [], 5,
   fun _ => .ok ()⟩

/-- Protobuf bytes used by the keypair round-trip witness. -/
def pbW : List Nat := [1, 2, 250]

/-- Identity environment for the generation run of the round-trip
witness: the keypair file does not exist; the generated keypair is token
9 with protobuf form `pbW`. -/
def envC6A : IdentityEnv Nat :=
  ⟨.ok none, false, .error StartupErr.fsReadErr,
   fun bs => if bs = pbW then some 9 else none,
   fun k => if k = 9 then .ok pbW else .error StartupErr.protoEncodeErr, 9,
   fun _ => .ok ()⟩

/-- Identity environment for the re-resolution run of the round-trip
witness: the keypair file now exists and holds the base64 encoding of
`pbW`. -/
def envC6B : IdentityEnv Nat :=
  ⟨.ok none, true, .ok (base64Encode pbW),
   fun bs => if bs = pbW then some 9 else none,
   fun k => if k = 9 then .ok pbW else .error StartupErr.protoEncodeErr, 9,
   fun _ => .ok ()⟩

/-- A Get path with a cid root and one named segment. -/
def pathW : IpfsPath :=
  ⟨PathRoot.cidRoot 4, ["file.txt"]⟩

/-- A Get path with a non-cid root and no named segments. -/
def pathPanicW : IpfsPath :=
  ⟨PathRoot.otherRoot 2, []⟩

/-- A sample Get status stream whose first progress item carries no
total size and whose second does. -/
def streamW : List UnixfsStatus :=
  [UnixfsStatus.progressStatus 1 none,
   UnixfsStatus.progressStatus 2 (some 10),
   UnixfsStatus.progressStatus 3 (some 99),
   UnixfsStatus.completedStatus 0]

/-! Helper lemmas. -/

theorem codeSextet_sextetCode : ∀ n < 64, codeSextet (sextetCode n) = some n := by
  decide

theorem sextetCode_ne_padCode : ∀ n < 64, sextetCode n ≠ padCode := by
  decide

/-- Round-trip: decoding an encoded byte list recovers it. -/
theorem base64_roundtrip (bs : List Nat) (h : ∀ x ∈ bs, x < 256) :
    base64Decode (base64Encode bs) = some bs := by
  induction bs using base64Encode.induct with
  | case1 => rfl
  | case2 a =>
      have ha : a < 256 := h a (by simp)
      have h1 : a / 4 < 64 := by omega
      have h2 : a % 4 * 16 < 64 := by omega
      have e2 : a % 4 * 16 % 16 = 0 := by omega
      simp only [base64Encode, base64Decode,
        codeSextet_sextetCode _ h1, codeSextet_sextetCode _ h2]
      simp [e2]
      omega
  | case3 a b =>
      have ha : a < 256 := h a (by simp)
      have hb : b < 256 := h b (by simp)
      have h1 : a / 4 < 64 := by omega
      have h2 : a % 4 * 16 + b / 16 < 64 := by omega
      have h3 : b % 16 * 4 < 64 := by omega
      have e3 : b % 16 * 4 % 4 = 0 := by omega
      simp only [base64Encode, base64Decode,
        codeSextet_sextetCode _ h1, codeSextet_sextetCode _ h2,
        codeSextet_sextetCode _ h3]
      simp [sextetCode_ne_padCode _ h3, e3]
      constructor <;> omega
  | case4 a b c rest ih =>
      have ha : a < 256 := h a (by simp)
      have hb : b < 256 := h b (by simp)
      have hc : c < 256 := h c (by simp)
      have hrest : ∀ x ∈ rest, x < 256 := by
        intro x hx
        exact h x (by simp [hx])
      have h1 : a / 4 < 64 := by omega
      have h2 : a % 4 * 16 + b / 16 < 64 := by omega
      have h3 : b % 16 * 4 + c / 64 < 64 := by omega
      have h4 : c % 64 < 64 := by omega
      simp only [base64Encode, base64Decode,
        codeSextet_sextetCode _ h1, codeSextet_sextetCode _ h2,
        codeSextet_sextetCode _ h3, codeSextet_sextetCode _ h4]
      simp [sextetCode_ne_padCode _ h3, sextetCode_ne_padCode _ h4, ih hrest]
      refine ⟨by omega, by omega, by omega⟩

theorem addConsume_length (stream : List UnixfsStatus) :
    (addConsume stream).1 = stream.length := by
  induction stream with
  | nil => rfl
  | cons s rest ih => simp [addConsume, ih]

theorem addConsume_failed_mem (stream : List UnixfsStatus) (e : Nat)
    (h : UnixfsStatus.failedStatus e ∈ stream) :
    AddPbOp.finishErrorAdding e ∈ (addConsume stream).2 := by
  induction stream with
  | nil => cases h
  | cons s rest ih =>
      rcases List.mem_cons.mp h with h1 | h2
      · rw [← h1]
        simp [addConsume, addStep]
      · simp only [addConsume]
        exact List.mem_append_right _ (ih h2)

theorem relayPhase_attempts (relays : List Multiaddr)
    (listenOk : Multiaddr → Bool) :
    listenAttempts (relayPhase relays listenOk) = relays.map p2pCircuitOf := by
  induction relays with
  | nil => rfl
  | cons r rest ih =>
      by_cases hr : listenOk (p2pCircuitOf r) <;>
        simp [relayPhase, hr, listenAttempts, ih]

theorem relayPhase_error_mem (relays : List Multiaddr)
    (listenOk : Multiaddr → Bool) (r : Multiaddr) (hr : r ∈ relays)
    (hfail : listenOk (p2pCircuitOf r) = false) :
    RelayAction.listenError (p2pCircuitOf r) ∈ relayPhase relays listenOk := by
  induction relays with
  | nil => cases hr
  | cons a rest ih =>
      rcases List.mem_cons.mp hr with h1 | h2
      · rw [← h1]
        simp [relayPhase, hfail]
      · by_cases ha : listenOk (p2pCircuitOf a) <;>
          simp only [relayPhase, ha, if_true, if_false, List.mem_append] <;>
          exact Or.inr (ih h2)

theorem countBootstrapCalls_append (xs ys : List BootAction) :
    countBootstrapCalls (xs ++ ys) =
      countBootstrapCalls xs + countBootstrapCalls ys := by
  induction xs with
  | nil => simp [countBootstrapCalls]
  | cons x rest ih =>
      cases x with
      | defaultBootstrap => simp [countBootstrapCalls, ih]
      | addBootstrap a => simp [countBootstrapCalls, ih]
      | bootstrapCall =>
          simp [countBootstrapCalls, ih]
          omega
      | sleepFiveMinutes => simp [countBootstrapCalls, ih]

theorem countBootstrapCalls_map (l : List Multiaddr) :
    countBootstrapCalls (l.map BootAction.addBootstrap) = 0 := by
  induction l with
  | nil => rfl
  | cons a rest ih => simpa [countBootstrapCalls] using ih

theorem sleep_not_mem_map (l : List Multiaddr) :
    BootAction.sleepFiveMinutes ∉ l.map BootAction.addBootstrap := by
  simp

theorem registerBootstraps_ok (l : List Multiaddr) (env : BootEnv)
    (tr : List BootAction) (h : registerBootstraps l env = Except.ok tr) :
    tr = l.map BootAction.addBootstrap := by
  induction l generalizing tr with
  | nil =>
      simp only [registerBootstraps, Except.ok.injEq] at h
      simp [← h]
  | cons a rest ih =>
      unfold registerBootstraps at h
      by_cases ha : env.addBootstrapOk a
      · rw [if_pos ha] at h
        cases hr : registerBootstraps rest env with
        | error e => rw [hr] at h; simp at h
        | ok tr2 =>
            rw [hr] at h
            simp only [Except.ok.injEq] at h
            simp [← h, ih tr2 hr]
      · rw [if_neg ha] at h; simp at h

theorem getLoop_sizeSet_true (stream : List UnixfsStatus) :
    List.filter isSetLengthOp (getLoop true stream) = [] := by
  induction stream with
  | nil => rfl
  | cons s rest ih =>
      cases s with
      | progressStatus w t => simp [getLoop, getStep, isSetLengthOp, ih]
      | completedStatus p => simp [getLoop, getStep, isSetLengthOp, ih]
      | failedStatus e => simp [getLoop, getStep, isSetLengthOp, ih]

theorem getConsume_setLength (stream : List UnixfsStatus) :
    List.filter isSetLengthOp (getConsume stream) =
      (match firstTotalSize stream with
       | some t => [GetPbOp.setLength t]
       | none => []) := by
  unfold getConsume
  induction stream with
  | nil => rfl
  | cons s rest ih =>
      cases s with
      | progressStatus w t =>
          cases t with
          | none =>
              simpa [getLoop, getStep, isSetLengthOp, firstTotalSize] using ih
          | some size =>
              simp [getLoop, getStep, isSetLengthOp, firstTotalSize,
                getLoop_sizeSet_true]
      | completedStatus p =>
          simpa [getLoop, getStep, isSetLengthOp, firstTotalSize] using ih
      | failedStatus e =>
          simpa [getLoop, getStep, isSetLengthOp, firstTotalSize] using ih

/-! Claim theorems. -/

/-- C1 counterexample: at a concrete input with one bootstrap address
and every node-service call succeeding, the whole bootstrap phase of the
process performs exactly one bootstrap invocation and never sleeps;
there is no background loop, so the claimed repeating five-minute cycle
is absent. -/
theorem bootstrap_no_loop_counterexample :
    bootstrapPhase [addrW] bootEnvW =
      Except.ok [BootAction.addBootstrap addrW, BootAction.bootstrapCall] ∧
    countBootstrapCalls
      [BootAction.addBootstrap addrW, BootAction.bootstrapCall] = 1 ∧
    BootAction.sleepFiveMinutes ∉
      [BootAction.addBootstrap addrW, BootAction.bootstrapCall] := by
  refine ⟨rfl, rfl, by decide⟩

/-- C1 amended: on any successful run of the bootstrap phase, the trace
contains exactly one bootstrap invocation when the node's bootstrap peer
set is non-empty and none otherwise, and never contains a sleep: the
program bootstraps once at startup and never again. -/
theorem bootstrap_single_invocation (bootstraps : List Multiaddr)
    (env : BootEnv) (tr : List BootAction)
    (h : bootstrapPhase bootstraps env = Except.ok tr) :
    countBootstrapCalls tr = (if env.bootstrapsNonEmpty then 1 else 0) ∧
    BootAction.sleepFiveMinutes ∉ tr := by
  have key : ∀ tr0 : List BootAction, countBootstrapCalls tr0 = 0 →
      BootAction.sleepFiveMinutes ∉ tr0 →
      bootstrapTail tr0 env = Except.ok tr →
      countBootstrapCalls tr = (if env.bootstrapsNonEmpty then 1 else 0) ∧
      BootAction.sleepFiveMinutes ∉ tr := by
    intro tr0 hc hs ht
    unfold bootstrapTail at ht
    by_cases hne : env.bootstrapsNonEmpty
    · rw [if_pos hne] at ht
      by_cases hok : env.bootstrapCallOk
      · rw [if_pos hok] at ht
        simp only [Except.ok.injEq] at ht
        rw [← ht, if_pos hne]
        constructor
        · rw [countBootstrapCalls_append, hc]
          rfl
        · simp [hs]
      · rw [if_neg hok] at ht
        simp at ht
    · rw [if_neg hne] at ht
      simp only [Except.ok.injEq] at ht
      rw [← ht, if_neg hne]
      exact ⟨hc, hs⟩
  cases bootstraps with
  | nil =>
      simp only [bootstrapPhase] at h
      by_cases hd : env.defaultBootstrapOk
      · rw [if_pos hd] at h
        exact key [BootAction.defaultBootstrap] rfl (by decide) h
      · rw [if_neg hd] at h
        simp at h
  | cons a rest =>
      simp only [bootstrapPhase] at h
      cases hr : registerBootstraps (a :: rest) env with
      | error e => rw [hr] at h; simp at h
      | ok tr0 =>
          rw [hr] at h
          rw [registerBootstraps_ok _ env tr0 hr] at h
          exact key _ (countBootstrapCalls_map _) (sleep_not_mem_map _) h

/-- C1 witness: the amended theorem applied at the concrete all-success
input with one bootstrap address. -/
theorem bootstrap_single_invocation_witness :
    countBootstrapCalls
      [BootAction.addBootstrap addrW, BootAction.bootstrapCall] =
      (if bootEnvW.bootstrapsNonEmpty then 1 else 0) ∧
    BootAction.sleepFiveMinutes ∉
      [BootAction.addBootstrap addrW, BootAction.bootstrapCall] :=
  bootstrap_single_invocation [addrW] bootEnvW
    [BootAction.addBootstrap addrW, BootAction.bootstrapCall] rfl

/-- C2 counterexample: on a stream whose first item is a failure and
whose second is a progress report, the Add loop consumes both items and
still issues the later progress-bar call, so a failed item does not stop
consumption of that stream. -/
theorem add_failed_not_terminal_counterexample :
    (addConsume [UnixfsStatus.failedStatus 0,
                 UnixfsStatus.progressStatus 5 none]).1 = 2 ∧
    (addConsume [UnixfsStatus.failedStatus 0,
                 UnixfsStatus.progressStatus 5 none]).1 ≠ 1 ∧
    (addConsume [UnixfsStatus.failedStatus 0,
                 UnixfsStatus.progressStatus 5 none]).2 =
      [AddPbOp.finishErrorAdding 0, AddPbOp.setPosition 5] := by
  refine ⟨rfl, by decide, rfl⟩

/-- C2 amended: on a failed Add item the dispatcher prints the error by
finishing the progress bar with the error message, but does not stop:
the loop consumes every item of the stream. -/
theorem add_failed_prints_and_continues (stream : List UnixfsStatus) (e : Nat)
    (h : UnixfsStatus.failedStatus e ∈ stream) :
    (addConsume stream).1 = stream.length ∧
    AddPbOp.finishErrorAdding e ∈ (addConsume stream).2 :=
  ⟨addConsume_length stream, addConsume_failed_mem stream e h⟩

/-- C2 witness: the amended theorem applied to a one-item stream whose
only item is a failure. -/
theorem add_failed_prints_and_continues_witness :
    (addConsume [UnixfsStatus.failedStatus 3]).1 =
      [UnixfsStatus.failedStatus 3].length ∧
    AddPbOp.finishErrorAdding 3 ∈ (addConsume [UnixfsStatus.failedStatus 3]).2 :=
  add_failed_prints_and_continues [UnixfsStatus.failedStatus 3] 3 (by decide)

/-- C3 counterexample: with the keypair file present and holding the
single byte 33, which is not a base64 symbol, the contents fail to
base64-decode and identity resolution is a fatal startup error rather
than a degraded no-identity result. -/
theorem keypair_decode_fatal_counterexample :
    base64Decode [33] = none ∧
    resolveIdentity ⟨false, true⟩ envC3Cex =
      Except.error StartupErr.base64DecodeErr := by
  exact ⟨rfl, rfl⟩

/-- C3 amended: with the keypair file present, protobuf-parse failure
of successfully base64-decoded contents yields no identity rather than a
fatal error; base64-decode failure, like a filesystem error, aborts
startup. -/
theorem keypair_parse_failure_degrades (K : Type) (env : IdentityEnv K)
    (contents bytes : List Nat) (hf : env.isFile = true)
    (hr : env.readKeypairFile = Except.ok contents)
    (hd : base64Decode contents = some bytes)
    (hp : env.fromProtobufEncoding bytes = none) :
    resolveIdentity ⟨false, true⟩ env =
      Except.ok (none, [IdAction.readKeypairFile]) := by
  simp [resolveIdentity, configStep, keypairFileStep, hf, hr, hd, hp]

/-- C3 witness: the amended theorem applied to an empty keypair file,
whose contents decode to the empty byte list but fail to parse. -/
theorem keypair_parse_failure_degrades_witness :
    resolveIdentity ⟨false, true⟩ envC3W =
      Except.ok (none, [IdAction.readKeypairFile]) :=
  keypair_parse_failure_degrades Nat envC3W [] [] rfl rfl rfl rfl

/-- C4 counterexample: the relay loop performs no dial step; at a
concrete one-relay input with an all-success oracle the trace is exactly
one listen registration and contains no dial attempt, so the claimed
per-relay dialing is absent. -/
theorem relay_no_dial_counterexample :
    relayPhase [addrW] (fun _ => true) =
      [RelayAction.listenAttempt (p2pCircuitOf addrW)] ∧
    RelayAction.dialAttempt addrW ∉ relayPhase [addrW] (fun _ => true) := by
  refine ⟨rfl, by decide⟩

/-- C4 amended: without any separate dial step, the program processes
every relay address sequentially, attempting to register the derived
circuit-relay listening address (the original address plus the
circuit-relay segment) for each; a failed registration adds a logged
error and processing continues, so the attempted registrations are
exactly the circuit derivations of all the relays regardless of
per-address outcomes. -/
theorem relay_per_address_isolation (relays : List Multiaddr)
    (listenOk : Multiaddr → Bool) (r : Multiaddr) (hr : r ∈ relays)
    (hfail : listenOk (p2pCircuitOf r) = false) :
    listenAttempts (relayPhase relays listenOk) = relays.map p2pCircuitOf ∧
    RelayAction.listenError (p2pCircuitOf r) ∈ relayPhase relays listenOk :=
  ⟨relayPhase_attempts relays listenOk,
   relayPhase_error_mem relays listenOk r hr hfail⟩

/-- C4 witness: the amended theorem applied to a two-relay list with an
all-failing oracle. -/
theorem relay_per_address_isolation_witness :
    listenAttempts (relayPhase [addrW, [MProto.seg 1]] (fun _ => false)) =
      [addrW, [MProto.seg 1]].map p2pCircuitOf ∧
    RelayAction.listenError (p2pCircuitOf addrW) ∈
      relayPhase [addrW, [MProto.seg 1]] (fun _ => false) :=
  relay_per_address_isolation [addrW, [MProto.seg 1]] (fun _ => false) addrW
    (by decide) rfl

/-- C5: when the external config yields a valid embedded identity, that
identity is the one used, whether or not a keypair path was also given,
and the action trace shows the keypair file is neither read nor
written. -/
theorem config_identity_precedence (K : Type) (env : IdentityEnv K) (k : K)
    (kpGiven : Bool) (h : env.configLoad = Except.ok (some k)) :
    resolveIdentity ⟨true, kpGiven⟩ env =
      Except.ok (some k, [IdAction.loadConfig]) ∧
    List.all [IdAction.loadConfig] (fun a => ! touchesKeypairFile a) = true := by
  constructor
  · simp [resolveIdentity, configStep, h]
  · decide

/-- C5 witness: the precedence theorem applied to an environment where
both the config identity and a parsable keypair file are available. -/
theorem config_identity_precedence_witness :
    resolveIdentity ⟨true, true⟩ envC5W =
      Except.ok (some 7, [IdAction.loadConfig]) ∧
    List.all [IdAction.loadConfig] (fun a => ! touchesKeypairFile a) = true :=
  config_identity_precedence Nat envC5W 7 true rfl

/-- C6: with a keypair path naming no existing file, the run generates
one keypair and performs exactly one write, persisting the base64
encoding of its protobuf form; resolving identity again from the same
path, whose file now holds exactly the written contents, yields the same
keypair and hence the same peer identifier. -/
theorem keypair_roundtrip (K : Type) (env env2 : IdentityEnv K)
    (pb : List Nat) (hbytes : ∀ x ∈ pb, x < 256)
    (henc : env.toProtobufEncoding env.generateEd25519 = Except.ok pb)
    (hnf : env.isFile = false)
    (hw : env.writeKeypairFile (base64Encode pb) = Except.ok ())
    (h2f : env2.isFile = true)
    (h2r : env2.readKeypairFile = Except.ok (base64Encode pb))
    (h2p : env2.fromProtobufEncoding pb = some env.generateEd25519) :
    resolveIdentity ⟨false, true⟩ env =
      Except.ok (some env.generateEd25519,
        [IdAction.generateKeypair,
         IdAction.writeKeypairFile (base64Encode pb)]) ∧
    resolveIdentity ⟨false, true⟩ env2 =
      Except.ok (some env.generateEd25519, [IdAction.readKeypairFile]) := by
  constructor
  · simp [resolveIdentity, configStep, keypairFileStep, hnf, henc, hw]
  · simp [resolveIdentity, configStep, keypairFileStep, h2f, h2r,
      base64_roundtrip pb hbytes, h2p]

/-- C6 witness: the round-trip theorem applied to keypair token 9 with
protobuf bytes `pbW`. -/
theorem keypair_roundtrip_witness :
    resolveIdentity ⟨false, true⟩ envC6A =
      Except.ok (some envC6A.generateEd25519,
        [IdAction.generateKeypair,
         IdAction.writeKeypairFile (base64Encode pbW)]) ∧
    resolveIdentity ⟨false, true⟩ envC6B =
      Except.ok (some envC6A.generateEd25519, [IdAction.readKeypairFile]) :=
  keypair_roundtrip Nat envC6A envC6B pbW (by decide) rfl rfl rfl rfl rfl
    (by decide)

/-- C7: the assembled node configuration enables the relay-server
capability if and only if no relay addresses were supplied. -/
theorem relayServer_iff_no_relays (opt : NodeOptions) (kp : Option Nat) :
    (buildNode opt kp).relayServer = true ↔ opt.relays = [] := by
  cases kp <;> cases hp : opt.path <;>
    by_cases hl : opt.listenAddress.isEmpty <;>
    by_cases hrel : opt.relays.isEmpty <;>
    simp_all [buildNode, NodeBuilder.new, NodeBuilder.withDefault,
      NodeBuilder.withRelay, NodeBuilder.withUpnp, NodeBuilder.fdLimitSet,
      NodeBuilder.withCustomBehaviour, NodeBuilder.setKeypair,
      NodeBuilder.addListeningAddrs, NodeBuilder.withRelayServer,
      NodeBuilder.setPath, List.isEmpty_iff]

/-- C8: for Get with no explicit local target, the file name is the
last named segment when one exists and otherwise the display form of the
root content identifier; and the progress-bar length is set exactly
once, by the first progress item carrying a total size, or never if none
does. -/
theorem get_target_and_length (p : IpfsPath) (c : Nat)
    (stream : List UnixfsStatus) (hc : p.root = PathRoot.cidRoot c) :
    resolveGetTarget none p =
      GetTarget.file (match p.segments.getLast? with
        | some item => item
        | none => cidDisplay c) ∧
    List.filter isSetLengthOp (getConsume stream) =
      (match firstTotalSize stream with
       | some t => [GetPbOp.setLength t]
       | none => []) := by
  constructor
  · unfold resolveGetTarget
    cases h : p.segments.getLast? with
    | some item => simp
    | none => simp [hc, PathRoot.cid]
  · exact getConsume_setLength stream

/-- C8 witness: the theorem applied to a path with one named segment
and a stream whose second item is the first to carry a total size. -/
theorem get_target_and_length_witness :
    resolveGetTarget none pathW =
      GetTarget.file (match pathW.segments.getLast? with
        | some item => item
        | none => cidDisplay 4) ∧
    List.filter isSetLengthOp (getConsume streamW) =
      (match firstTotalSize streamW with
       | some t => [GetPbOp.setLength t]
       | none => []) :=
  get_target_and_length pathW 4 streamW rfl

/-- C9: for Get with no explicit local target, a path with no named
segments whose root is not a content identifier makes the dispatcher
abort via panic with message Invalid path, modelled by
`GetTarget.panicInvalidPath`, rather than return an error value. -/
theorem get_target_panics (p : IpfsPath) (h1 : p.segments = [])
    (h2 : p.root.cid = none) :
    resolveGetTarget none p = GetTarget.panicInvalidPath := by
  simp [resolveGetTarget, h1, h2]

/-- C9 witness: the panic theorem applied to a segment-free path with a
non-cid root. -/
theorem get_target_panics_witness :
    resolveGetTarget none pathPanicW = GetTarget.panicInvalidPath :=
  get_target_panics pathPanicW rfl rfl

/-- C10: the pin group's recursive flag, whose clap default is true, is
passed unchanged to the unpin operation: pin rm issues removePin with
exactly the flag value pin add would pass to insertPin, so removal with
the default flag is recursive. -/
theorem pin_rm_receives_recursive (r : Bool) (c c2 : Nat) :
    pinDispatchCall ⟨r, PinCommand.rm c⟩ = PinNodeCall.removePin c r ∧
    pinDispatchCall ⟨r, PinCommand.add c2⟩ = PinNodeCall.insertPin c2 r ∧
    pinRecursiveDefault = true ∧
    pinDispatchCall ⟨pinRecursiveDefault, PinCommand.rm c⟩ =
      PinNodeCall.removePin c true := by
  exact ⟨rfl, rfl, rfl, rfl⟩

end IpfsServer
